import Mathlib

/-!
Verification development for the receive-side RTCP engine of this repository.

The repository ships the behavioural unit-test suite of the RTCP receiver
(`webrtc/modules/rtp_rtcp/source/rtcp_receiver_unittest.cc`); the receiver
implementation itself is not part of the source tree.  The definitions below
are therefore modelled from the specification's description of the receiver
(data model, handlers, queries), with the unit tests taken as the authority
on observable behaviour wherever the two disagree.  Byte-level decoding of
sub-messages is out of scope per the specification ("treated as a given
codec library"), so packets are represented in decoded form and only the
fixed top-level header is modelled at the byte level.
-/

namespace RtcpModel

def twoTo32 : Nat := 4294967296

def twoTo31 : Nat := 2147483648

/-- Modelled from the spec: conversion of a 32-bit compact-NTP (16.16
fixed-point) interval to milliseconds, used by the RTT computations.
A value that is negative when read as a signed 32-bit quantity, or whose
conversion rounds to zero, is reported as the minimum of 1 millisecond
("Round-trip values are never reported as zero or negative — any
non-positive computed delta is clamped to a minimum of one time unit"). -/
def compactNtpRttToMs (x : Nat) : Int :=
  if twoTo31 ≤ x % twoTo32 then 1
  else max 1 (Int.ofNat ((x % twoTo32 * 1000 + 32768) / 65536))

/-- Modelled from the spec: the 32-bit wrap-around difference
`now_compact_ntp - delay - last_report_compact_ntp` used by both RTT
derivation paths. -/
def compactNtpDiff (nowNtp delay lastReport : Nat) : Nat :=
  (nowNtp % twoTo32 + 2 * twoTo32 - delay % twoTo32 - lastReport % twoTo32) % twoTo32

/-- A decoded report block as carried inside a sender/receiver report. -/
structure ReportBlock where
  sourceSSRC : Nat
  fractionLost : Nat
  cumulativeLost : Nat
  extendedHighSeqNum : Nat
  jitter : Nat
  lastSr : Nat
  delaySinceLastSr : Nat
deriving DecidableEq

/-- A report block as persisted in the per-identity store: the received
statistics together with the remote identity it came from. -/
structure StoredBlock where
  remoteSSRC : Nat
  sourceSSRC : Nat
  fractionLost : Nat
  cumulativeLost : Nat
  extendedHighSeqNum : Nat
  jitter : Nat
deriving DecidableEq

/-- A decoded DLRR sub-block item of an extended report. -/
structure DlrrItem where
  ssrc : Nat
  lastRR : Nat
  delaySinceLastRR : Nat
deriving DecidableEq

/-- A TMMBR candidate entry: most recently advertised bitrate bound and
its local arrival time. -/
structure TmmbrEntry where
  bitrateBps : Nat
  arrivalMs : Int
deriving DecidableEq

/-- Decoded RTCP sub-messages, as produced by the codec library the spec
treats as given. -/
inductive RtcpPacket where
  | sr (senderSsrc : Nat) (blocks : List ReportBlock)
  | rr (senderSsrc : Nat) (blocks : List ReportBlock)
  | sdes (chunks : List (Nat × String))
  | bye (senderSsrc : Nat)
  | nack (senderSsrc : Nat) (mediaSsrc : Nat) (ids : List Nat)
  | tmmbr (senderSsrc : Nat) (items : List (Nat × Nat))
  | xrDlrr (senderSsrc : Nat) (items : List DlrrItem)
deriving DecidableEq

/-- Observer notifications queued while a buffer is processed. -/
inductive Notif where
  | reportBlocks (blocks : List StoredBlock)
  | receiverReport (remoteSsrc : Nat) (blocks : List StoredBlock) (nowMs : Int)
  | statisticsUpdated (fractionLost cumulativeLost extendedHighSeqNum jitter : Nat)
      (sourceSsrc : Nat)
  | cnameChanged (cname : String) (remoteSsrc : Nat)
  | receivedNack (ids : List Nat)
  | estimatedBitrate (bitrateBps : Nat)
  | setTmmbn (items : List (Nat × Nat))
deriving DecidableEq

def isStatisticsUpdated : Notif → Bool
  | .statisticsUpdated _ _ _ _ _ => true
  | _ => false

def isReceiverReportNotif : Notif → Bool
  | .receiverReport _ _ _ => true
  | _ => false

/-- Modelled from the spec: the shared per-session receiver state
(§3 data model).  Millisecond times use the sentinel 0 for "never". -/
structure ReceiverState where
  registeredSsrcs : List Nat
  mainSsrc : Nat
  remoteSsrc : Nat
  reportBlocks : List StoredBlock
  rtts : List (Nat × Int)
  cnames : List (Nat × String)
  lastReceivedRrMs : Int
  lastIncreasedSeqMs : Int
  nackRequests : Nat
  uniqueNackIds : List Nat
  tmmbrInfos : List (Nat × TmmbrEntry)
  xrRrRttEnabled : Bool
  xrRrRttMs : Option Int
  statsCallbackRegistered : Bool
deriving DecidableEq

def toStored (remote : Nat) (rb : ReportBlock) : StoredBlock :=
  { remoteSSRC := remote
    sourceSSRC := rb.sourceSSRC
    fractionLost := rb.fractionLost
    cumulativeLost := rb.cumulativeLost
    extendedHighSeqNum := rb.extendedHighSeqNum
    jitter := rb.jitter }

/-- The store key of a report block: the (local identity, remote identity)
pair it is filed under. -/
def sameKey (remote srcSsrc : Nat) (b : StoredBlock) : Bool :=
  b.sourceSSRC == srcSsrc && b.remoteSSRC == remote

/-- The new value of the remote identity's RTT entry after an owned
block: refreshed from the compact-NTP difference when the block carries a
non-zero last-report timestamp, otherwise the previous value (0 when the
entry is first created). -/
def rttUpdate (nowNtp : Nat) (st : ReceiverState) (remote : Nat) (rb : ReportBlock) : Int :=
  if rb.lastSr % twoTo32 = 0 then ((st.rtts.lookup remote).getD 0)
  else compactNtpRttToMs (compactNtpDiff nowNtp rb.delaySinceLastSr rb.lastSr)

/-- The new value of the last-sequence-number-change time: refreshed when
the block's extended-highest-sequence-number differs from the stored one
(a first-seen entry counts as a change). -/
def seqUpdate (nowMs : Int) (st : ReceiverState) (remote : Nat) (rb : ReportBlock) : Int :=
  match st.reportBlocks.find? (sameKey remote rb.sourceSSRC) with
  | none => nowMs
  | some prev =>
      if prev.extendedHighSeqNum = rb.extendedHighSeqNum then st.lastIncreasedSeqMs
      else nowMs

/-- Modelled from the spec: handling of one report block of a
sender/receiver report.  Blocks not addressed to an owned local identity
are dropped (per the tests, they are also excluded from the list handed to
the bandwidth collaborator).  An owned block overwrites the stored entry
with the same (local, remote) key, refreshes the RTT entry of the
originating remote identity and records the time of a change of the
extended-highest-sequence-number. -/
def handleReportBlock (nowMs : Int) (nowNtp : Nat) (remote : Nat)
    (st : ReceiverState) (rb : ReportBlock) : ReceiverState × List StoredBlock :=
  if rb.sourceSSRC ∈ st.registeredSsrcs then
    ({ st with
        reportBlocks :=
          toStored remote rb :: st.reportBlocks.filter (fun b => !(sameKey remote rb.sourceSSRC b))
        rtts := (remote, rttUpdate nowNtp st remote rb) :: st.rtts.filter (fun p => p.1 != remote)
        lastIncreasedSeqMs := seqUpdate nowMs st remote rb },
     [toStored remote rb])
  else (st, [])

def reportStep (nowMs : Int) (nowNtp : Nat) (remote : Nat)
    (acc : ReceiverState × List StoredBlock) (rb : ReportBlock) :
    ReceiverState × List StoredBlock :=
  let r := handleReportBlock nowMs nowNtp remote acc.1 rb
  (r.1, acc.2 ++ r.2)

/-- Modelled from the spec: handling of a sender/receiver report.  Every
contained block runs through `handleReportBlock`; the resulting list of
owned blocks is handed once to the report-block collaborator and once to
the bandwidth-estimation collaborator together with the declared origin
identity and the current time; the last-report arrival time is updated
whether or not any block was owned; a registered statistics sink receives
one notification per owned block. -/
def handleReport (nowMs : Int) (nowNtp : Nat) (remote : Nat)
    (blocks : List ReportBlock) (st : ReceiverState) : ReceiverState × List Notif :=
  let res := blocks.foldl (reportStep nowMs nowNtp remote) (st, [])
  let st1 := { res.1 with lastReceivedRrMs := nowMs }
  let statNotifs :=
    if st1.statsCallbackRegistered then
      res.2.map (fun b =>
        Notif.statisticsUpdated b.fractionLost b.cumulativeLost b.extendedHighSeqNum
          b.jitter b.sourceSSRC)
    else []
  (st1, Notif.reportBlocks res.2 :: Notif.receiverReport remote res.2 nowMs :: statNotifs)

/-- Modelled from the spec: a session-leave message removes the remote
identity's canonical-name entry, every stored report block whose most
recent origin was that remote identity, and its RTT bookkeeping. -/
def handleBye (sender : Nat) (st : ReceiverState) : ReceiverState × List Notif :=
  ({ st with
      cnames := st.cnames.filter (fun p => p.1 != sender)
      reportBlocks := st.reportBlocks.filter (fun b => b.remoteSSRC != sender)
      rtts := st.rtts.filter (fun p => p.1 != sender) }, [])

/-- Modelled from the spec: one source-description chunk updates the
canonical-name table; a changed or first-seen value fires a name-changed
notification to a registered statistics sink. -/
def handleSdesChunk (acc : ReceiverState × List Notif) (c : Nat × String) :
    ReceiverState × List Notif :=
  let st := acc.1
  let changed : Bool := st.cnames.lookup c.1 != some c.2
  let st1 := { st with cnames := (c.1, c.2) :: st.cnames.filter (fun p => p.1 != c.1) }
  (st1, acc.2 ++ (if changed && st1.statsCallbackRegistered then [Notif.cnameChanged c.2 c.1] else []))

def handleSdes (chunks : List (Nat × String)) (st : ReceiverState) :
    ReceiverState × List Notif :=
  chunks.foldl handleSdesChunk (st, [])

def insertUnique (acc : List Nat) (i : Nat) : List Nat :=
  if i ∈ acc then acc else acc ++ [i]

def absorbIds (acc : List Nat) (ids : List Nat) : List Nat :=
  ids.foldl insertUnique acc

/-- Modelled from the spec: a NACK addressed to an owned local identity
forwards its raw ID list verbatim to the retransmission collaborator,
adds the occurrence's length to the total-request counter and absorbs the
IDs into the unique-ID set; otherwise it is dropped. -/
def handleNack (mediaSsrc : Nat) (ids : List Nat) (st : ReceiverState) :
    ReceiverState × List Notif :=
  if mediaSsrc ∈ st.registeredSsrcs then
    ({ st with
        nackRequests := st.nackRequests + ids.length
        uniqueNackIds := absorbIds st.uniqueNackIds ids },
     [Notif.receivedNack ids])
  else (st, [])

/-- The fixed TMMBR candidate expiry window in milliseconds (the tests
expect candidates to time out 25 seconds after arrival). -/
def kTmmbrTimeoutMs : Int := 25000

def tmmbrNotExpired (nowMs : Int) (p : Nat × TmmbrEntry) : Bool :=
  decide (nowMs - p.2.arrivalMs ≤ kTmmbrTimeoutMs)

/-- Modelled from the spec: the candidate-set query applies the lazy
expiry rule on every read — only entries younger than the expiry window
are returned, keyed by remote identity with their advertised bitrate. -/
def tmmbrReceived (nowMs : Int) (st : ReceiverState) : List (Nat × Nat) :=
  (st.tmmbrInfos.filter (tmmbrNotExpired nowMs)).map (fun p => (p.1, p.2.bitrateBps))

/-- Modelled from the spec: a TMMBR item addressed to an owned local
identity with a non-zero bitrate replaces the candidate entry keyed by
the message's remote identity, notifies the bandwidth collaborator with
the raw bitrate and pushes the current non-expired candidate set. -/
def handleTmmbrItem (nowMs : Int) (remote : Nat) (acc : ReceiverState × List Notif)
    (item : Nat × Nat) : ReceiverState × List Notif :=
  let st := acc.1
  if item.1 ∈ st.registeredSsrcs ∧ item.2 ≠ 0 then
    let st1 := { st with
      tmmbrInfos := (remote, { bitrateBps := item.2, arrivalMs := nowMs }) ::
        st.tmmbrInfos.filter (fun p => p.1 != remote) }
    (st1, acc.2 ++ [Notif.estimatedBitrate item.2, Notif.setTmmbn (tmmbrReceived nowMs st1)])
  else acc

def handleTmmbr (nowMs : Int) (remote : Nat) (items : List (Nat × Nat))
    (st : ReceiverState) : ReceiverState × List Notif :=
  items.foldl (handleTmmbrItem nowMs remote) (st, [])

/-- Modelled from the spec: one DLRR sub-block item.  When the XR-RTT
feature is enabled and the item is addressed to an owned local identity
and carries a non-zero last-report timestamp, the pending round-trip
sample is overwritten (last-write-wins across items of one message). -/
def handleDlrrItem (nowNtp : Nat) (st : ReceiverState) (it : DlrrItem) : ReceiverState :=
  if it.ssrc ∈ st.registeredSsrcs ∧ st.xrRrRttEnabled = true ∧ it.lastRR % twoTo32 ≠ 0 then
    let rtt := compactNtpRttToMs (compactNtpDiff nowNtp it.delaySinceLastRR it.lastRR)
    { st with xrRrRttMs := some rtt }
  else st

def handleXrDlrr (nowNtp : Nat) (items : List DlrrItem) (st : ReceiverState) :
    ReceiverState × List Notif :=
  (items.foldl (handleDlrrItem nowNtp) st, [])

/-- Modelled from the spec: dispatch of one decoded sub-message to its
handler. -/
def processPacket (nowMs : Int) (nowNtp : Nat) (st : ReceiverState) :
    RtcpPacket → ReceiverState × List Notif
  | .sr remote blocks => handleReport nowMs nowNtp remote blocks st
  | .rr remote blocks => handleReport nowMs nowNtp remote blocks st
  | .sdes chunks => handleSdes chunks st
  | .bye sender => handleBye sender st
  | .nack _ media ids => handleNack media ids st
  | .tmmbr remote items => handleTmmbr nowMs remote items st
  | .xrDlrr _ items => handleXrDlrr nowNtp items st

def processPackets (nowMs : Int) (nowNtp : Nat) (packets : List RtcpPacket)
    (st : ReceiverState) : ReceiverState × List Notif :=
  packets.foldl (fun acc p =>
    let r := processPacket nowMs nowNtp acc.1 p
    (r.1, acc.2 ++ r.2)) (st, [])

/-- An incoming raw buffer: the first octet and total size of the fixed
header (the byte-level part the dispatcher validates itself) together
with the decoded sub-messages the codec library yields for it. -/
structure RawBuffer where
  firstByte : Nat
  size : Nat
  packets : List RtcpPacket
deriving DecidableEq

/-- Modelled from the spec: basic structural validation of the fixed
control-message header — the buffer must hold at least one full 4-byte
header and the 2-bit version field of the first octet must equal 2. -/
def headerValid (b : RawBuffer) : Bool :=
  decide (4 ≤ b.size) && (b.firstByte / 64 % 4 == 2)

/-- Modelled from the spec: the buffer entry point.  A buffer whose fixed
header fails validation is rejected whole, with zero side effects and no
notifications; otherwise the sub-messages are processed in order. -/
def incomingPacket (nowMs : Int) (nowNtp : Nat) (b : RawBuffer)
    (st : ReceiverState) : ReceiverState × List Notif :=
  if headerValid b then processPackets nowMs nowNtp b.packets st else (st, [])

/-- RTT query for a remote identity: fails while no report block from that
remote has been processed. -/
def rttQuery (st : ReceiverState) (remote : Nat) : Option Int :=
  st.rtts.lookup remote

def statisticsReceived (st : ReceiverState) : List StoredBlock :=
  st.reportBlocks

def cnameQuery (st : ReceiverState) (remote : Nat) : Option String :=
  st.cnames.lookup remote

def lastReceivedReceiverReport (st : ReceiverState) : Int :=
  st.lastReceivedRrMs

def uniqueNackRequests (st : ReceiverState) : Nat :=
  st.uniqueNackIds.length

/-- Both timeout checks wait for three times the caller-supplied interval
(the multiplier the tests pin down for each of them). -/
def kRrTimeoutIntervals : Int := 3

/-- Modelled from the spec: edge-triggered report timeout; firing resets
the baseline so only the first check after expiry returns true. -/
def rtcpRrTimeout (intervalMs nowMs : Int) (st : ReceiverState) : Bool × ReceiverState :=
  if st.lastReceivedRrMs = 0 then (false, st)
  else if st.lastReceivedRrMs + kRrTimeoutIntervals * intervalMs < nowMs then
    (true, { st with lastReceivedRrMs := 0 })
  else (false, st)

/-- Modelled from the spec: edge-triggered sequence-number timeout against
the time of the last change of the extended-highest-sequence-number. -/
def rtcpRrSequenceNumberTimeout (intervalMs nowMs : Int) (st : ReceiverState) :
    Bool × ReceiverState :=
  if st.lastIncreasedSeqMs = 0 then (false, st)
  else if st.lastIncreasedSeqMs + kRrTimeoutIntervals * intervalMs < nowMs then
    (true, { st with lastIncreasedSeqMs := 0 })
  else (false, st)

/-- Modelled from the spec: the pending XR round-trip sample is one-shot —
the query returns it and clears it. -/
def getAndResetXrRrRtt (st : ReceiverState) : Option Int × ReceiverState :=
  (st.xrRrRttMs, { st with xrRrRttMs := none })

def setRtcpXrRrtrStatus (b : Bool) (st : ReceiverState) : ReceiverState :=
  { st with xrRrRttEnabled := b }

/-- Registering the statistics sink; registering "null" unregisters it. -/
def registerRtcpStatisticsCallback (b : Bool) (st : ReceiverState) : ReceiverState :=
  { st with statsCallbackRegistered := b }

def kSenderSsrc : Nat := 0x10203

def kSenderSsrc2 : Nat := 0x20304

def kReceiverMainSsrc : Nat := 0x123456

def kReceiverExtraSsrc : Nat := 0x1234567

def kNotToUsSsrc : Nat := 0x654321

/-- The receiver state as configured by the test fixture: two owned local
identities and the recognized remote identity. -/
def initState : ReceiverState :=
  { registeredSsrcs := [kReceiverMainSsrc, kReceiverExtraSsrc]
    mainSsrc := kReceiverMainSsrc
    remoteSsrc := kSenderSsrc
    reportBlocks := []
    rtts := []
    cnames := []
    lastReceivedRrMs := 0
    lastIncreasedSeqMs := 0
    nackRequests := 0
    uniqueNackIds := []
    tmmbrInfos := []
    xrRrRttEnabled := false
    xrRrRttMs := none
    statsCallbackRegistered := false }

/-- The stored blocks a report's block list produces: the blocks addressed
to an owned local identity, in order, tagged with the origin identity. -/
def ownedStored (reg : List Nat) (remote : Nat) (blocks : List ReportBlock) :
    List StoredBlock :=
  (blocks.filter (fun rb => decide (rb.sourceSSRC ∈ reg))).map (toStored remote)

/-- The part of the report-block store attributed to one remote identity. -/
def remoteFilter (remote : Nat) (l : List StoredBlock) : List StoredBlock :=
  l.filter (fun b => b.remoteSSRC == remote)

/-- The effect of a block list on the store entries of one remote
identity, written directly as a fold (newest entry first). -/
def storeFoldRemote (reg : List Nat) (remote : Nat) (blocks : List ReportBlock)
    (l : List StoredBlock) : List StoredBlock :=
  blocks.foldl (fun acc rb =>
    if rb.sourceSSRC ∈ reg then
      toStored remote rb :: acc.filter (fun b => !(b.sourceSSRC == rb.sourceSSRC))
    else acc) l

def nackSeqStep (nowMs : Int) (nowNtp : Nat) (remote media : Nat)
    (acc : ReceiverState × List Notif) (ids : List Nat) : ReceiverState × List Notif :=
  let r := processPacket nowMs nowNtp acc.1 (.nack remote media ids)
  (r.1, acc.2 ++ r.2)

/-- Processing a whole sequence of NACK messages addressed to one local
identity, accumulating the queued notifications. -/
def processNackList (nowMs : Int) (nowNtp : Nat) (remote media : Nat)
    (st : ReceiverState) (msgs : List (List Nat)) : ReceiverState × List Notif :=
  msgs.foldl (nackSeqStep nowMs nowNtp remote media) (st, [])

/-- The union of all ID sets of a sequence of NACK messages. -/
def nackUnion (msgs : List (List Nat)) : Finset Nat :=
  msgs.foldl (fun s ids => s ∪ ids.toFinset) ∅

/-! ### Basic lemmas about the handlers -/

theorem handleReportBlock_pos (nowMs : Int) (nowNtp : Nat) (remote : Nat)
    (st : ReceiverState) (rb : ReportBlock) (h : rb.sourceSSRC ∈ st.registeredSsrcs) :
    handleReportBlock nowMs nowNtp remote st rb =
      ({ st with
          reportBlocks := toStored remote rb ::
            st.reportBlocks.filter (fun b => !(sameKey remote rb.sourceSSRC b))
          rtts := (remote, rttUpdate nowNtp st remote rb) ::
            st.rtts.filter (fun p => p.1 != remote)
          lastIncreasedSeqMs := seqUpdate nowMs st remote rb },
       [toStored remote rb]) := by
  unfold handleReportBlock
  rw [if_pos h]

theorem handleReportBlock_neg (nowMs : Int) (nowNtp : Nat) (remote : Nat)
    (st : ReceiverState) (rb : ReportBlock) (h : rb.sourceSSRC ∉ st.registeredSsrcs) :
    handleReportBlock nowMs nowNtp remote st rb = (st, []) := by
  unfold handleReportBlock
  rw [if_neg h]

theorem handleReportBlock_registeredSsrcs (nowMs : Int) (nowNtp : Nat) (remote : Nat)
    (st : ReceiverState) (rb : ReportBlock) :
    (handleReportBlock nowMs nowNtp remote st rb).1.registeredSsrcs = st.registeredSsrcs := by
  unfold handleReportBlock
  split <;> rfl

theorem handleReportBlock_statsFlag (nowMs : Int) (nowNtp : Nat) (remote : Nat)
    (st : ReceiverState) (rb : ReportBlock) :
    (handleReportBlock nowMs nowNtp remote st rb).1.statsCallbackRegistered
      = st.statsCallbackRegistered := by
  unfold handleReportBlock
  split <;> rfl

theorem handleReportBlock_snd (nowMs : Int) (nowNtp : Nat) (remote : Nat)
    (st : ReceiverState) (rb : ReportBlock) :
    (handleReportBlock nowMs nowNtp remote st rb).2
      = if rb.sourceSSRC ∈ st.registeredSsrcs then [toStored remote rb] else [] := by
  unfold handleReportBlock
  split <;> simp_all

theorem reportStep_eq (nowMs : Int) (nowNtp : Nat) (remote : Nat)
    (acc : ReceiverState × List StoredBlock) (rb : ReportBlock) :
    reportStep nowMs nowNtp remote acc rb
      = ((handleReportBlock nowMs nowNtp remote acc.1 rb).1,
         acc.2 ++ (handleReportBlock nowMs nowNtp remote acc.1 rb).2) := rfl

theorem reportFold_registeredSsrcs (nowMs : Int) (nowNtp : Nat) (remote : Nat) :
    ∀ (blocks : List ReportBlock) (acc : ReceiverState × List StoredBlock),
    (blocks.foldl (reportStep nowMs nowNtp remote) acc).1.registeredSsrcs
      = acc.1.registeredSsrcs
  | [], _ => rfl
  | rb :: blocks, acc => by
      rw [List.foldl_cons, reportFold_registeredSsrcs nowMs nowNtp remote blocks]
      exact handleReportBlock_registeredSsrcs nowMs nowNtp remote acc.1 rb

theorem reportFold_statsFlag (nowMs : Int) (nowNtp : Nat) (remote : Nat) :
    ∀ (blocks : List ReportBlock) (acc : ReceiverState × List StoredBlock),
    (blocks.foldl (reportStep nowMs nowNtp remote) acc).1.statsCallbackRegistered
      = acc.1.statsCallbackRegistered
  | [], _ => rfl
  | rb :: blocks, acc => by
      rw [List.foldl_cons, reportFold_statsFlag nowMs nowNtp remote blocks]
      exact handleReportBlock_statsFlag nowMs nowNtp remote acc.1 rb

theorem ownedStored_cons (reg : List Nat) (remote : Nat) (rb : ReportBlock)
    (blocks : List ReportBlock) :
    ownedStored reg remote (rb :: blocks)
      = (if rb.sourceSSRC ∈ reg then [toStored remote rb] else [])
          ++ ownedStored reg remote blocks := by
  by_cases h : rb.sourceSSRC ∈ reg <;> simp [ownedStored, h]

theorem reportFold_snd (nowMs : Int) (nowNtp : Nat) (remote : Nat) :
    ∀ (blocks : List ReportBlock) (st : ReceiverState) (acc : List StoredBlock),
    (blocks.foldl (reportStep nowMs nowNtp remote) (st, acc)).2
      = acc ++ ownedStored st.registeredSsrcs remote blocks
  | [], st, acc => by simp [ownedStored]
  | rb :: blocks, st, acc => by
      rw [List.foldl_cons, reportStep_eq,
        reportFold_snd nowMs nowNtp remote blocks,
        handleReportBlock_registeredSsrcs, handleReportBlock_snd, ownedStored_cons]
      by_cases h : rb.sourceSSRC ∈ st.registeredSsrcs <;> simp [h]

/-- A non-positive compact-NTP interval (zero, or negative when read as a
signed 32-bit value) converts to exactly 1 millisecond. -/
theorem compactNtpRttToMs_eq_one (x : Nat) (hx : x < twoTo32)
    (h : x = 0 ∨ twoTo31 ≤ x) : compactNtpRttToMs x = 1 := by
  unfold compactNtpRttToMs
  rw [Nat.mod_eq_of_lt hx]
  rcases h with h | h
  · subst h
    decide
  · rw [if_pos h]

theorem compactNtpDiff_lt (nowNtp delay lastReport : Nat) :
    compactNtpDiff nowNtp delay lastReport < twoTo32 := by
  unfold compactNtpDiff
  exact Nat.mod_lt _ (by decide)

theorem handleReport_eq (nowMs : Int) (nowNtp : Nat) (remote : Nat)
    (blocks : List ReportBlock) (st : ReceiverState) :
    handleReport nowMs nowNtp remote blocks st
      = ({ (blocks.foldl (reportStep nowMs nowNtp remote) (st, [])).1 with
            lastReceivedRrMs := nowMs },
         Notif.reportBlocks (blocks.foldl (reportStep nowMs nowNtp remote) (st, [])).2 ::
           Notif.receiverReport remote
             (blocks.foldl (reportStep nowMs nowNtp remote) (st, [])).2 nowMs ::
           (if (blocks.foldl (reportStep nowMs nowNtp remote) (st, [])).1.statsCallbackRegistered
            then (blocks.foldl (reportStep nowMs nowNtp remote) (st, [])).2.map (fun b =>
              Notif.statisticsUpdated b.fractionLost b.cumulativeLost b.extendedHighSeqNum
                b.jitter b.sourceSSRC)
            else [])) := rfl

/-! ### C2 — envelope-fatal buffers -/

/-- C2: for every input buffer whose fixed control-message header fails
basic structural validation (e.g. wrong version field), processing the
buffer notifies no observer and leaves every piece of receiver state
unchanged. -/
theorem broken_buffer_is_ignored (nowMs : Int) (nowNtp : Nat) (b : RawBuffer)
    (st : ReceiverState) (h : headerValid b = false) :
    incomingPacket nowMs nowNtp b st = (st, []) := by
  unfold incomingPacket
  rw [h]
  rfl

/-- Witness for C2 at the test's broken packet {0, 0, 0, 0}. -/
theorem broken_buffer_is_ignored_witness :
    headerValid { firstByte := 0, size := 4, packets := [] } = false
    ∧ incomingPacket 5 0 { firstByte := 0, size := 4, packets := [] } initState
        = (initState, []) :=
  ⟨by decide, broken_buffer_is_ignored 5 0 _ initState (by decide)⟩

/-! ### C1 — RTT derivation from matched last-report/delay pairs -/

/-- C1: for every received sender/receiver report whose final block carries
a non-zero last-report timestamp and a delay value and is addressed to an
owned local identity, the RTT subsequently returned for the originating
remote identity equals `to_milliseconds(now_compact_ntp - delay -
last_report_compact_ntp)`, and whenever that raw 32-bit difference is zero
or negative (as a signed value) the returned RTT is exactly 1 ms. -/
theorem rtt_from_report_block (st : ReceiverState) (nowMs : Int) (nowNtp : Nat)
    (remote : Nat) (pre : List ReportBlock) (rb : ReportBlock)
    (hown : rb.sourceSSRC ∈ st.registeredSsrcs)
    (hsr : rb.lastSr % twoTo32 ≠ 0) :
    rttQuery (processPacket nowMs nowNtp st (.sr remote (pre ++ [rb]))).1 remote
      = some (compactNtpRttToMs (compactNtpDiff nowNtp rb.delaySinceLastSr rb.lastSr))
    ∧ ((compactNtpDiff nowNtp rb.delaySinceLastSr rb.lastSr = 0 ∨
        twoTo31 ≤ compactNtpDiff nowNtp rb.delaySinceLastSr rb.lastSr) →
      rttQuery (processPacket nowMs nowNtp st (.sr remote (pre ++ [rb]))).1 remote
        = some 1) := by
  have hfold : (pre ++ [rb]).foldl (reportStep nowMs nowNtp remote) (st, [])
      = reportStep nowMs nowNtp remote
          (pre.foldl (reportStep nowMs nowNtp remote) (st, [])) rb := by
    rw [List.foldl_append, List.foldl_cons, List.foldl_nil]
  have hreg : rb.sourceSSRC
      ∈ (pre.foldl (reportStep nowMs nowNtp remote) (st, [])).1.registeredSsrcs := by
    rw [reportFold_registeredSsrcs]
    exact hown
  have hmain : rttQuery (processPacket nowMs nowNtp st (.sr remote (pre ++ [rb]))).1 remote
      = some (compactNtpRttToMs (compactNtpDiff nowNtp rb.delaySinceLastSr rb.lastSr)) := by
    show rttQuery (handleReport nowMs nowNtp remote (pre ++ [rb]) st).1 remote = _
    rw [handleReport_eq]
    simp only [rttQuery, hfold, reportStep_eq]
    rw [handleReportBlock_pos nowMs nowNtp remote _ rb hreg]
    simp only [rttUpdate]
    rw [if_neg hsr]
    simp [List.lookup]
  exact ⟨hmain, fun h => by
    rw [hmain, compactNtpRttToMs_eq_one _ (compactNtpDiff_lt _ _ _) h]⟩

def c1Block : ReportBlock :=
  { sourceSSRC := kReceiverMainSsrc
    fractionLost := 0
    cumulativeLost := 0
    extendedHighSeqNum := 0
    jitter := 0
    lastSr := 0x10000
    delaySinceLastSr := 0x8000 }

/-- Witness for C1 at a concrete block: `now = 3.0s`, `delay = 0.5s`,
`last report = 1.0s` in 16.16 compact NTP, giving an RTT of 1500 ms. -/
theorem rtt_from_report_block_witness :
    rttQuery (processPacket 0 196608 initState (.sr kSenderSsrc ([] ++ [c1Block]))).1 kSenderSsrc
      = some (compactNtpRttToMs (compactNtpDiff 196608 c1Block.delaySinceLastSr c1Block.lastSr)) :=
  (rtt_from_report_block initState 0 196608 kSenderSsrc [] c1Block (by decide) (by decide)).1

/-! ### C3 — forwarding of report blocks to the bandwidth collaborator -/

theorem reportFold_blocks_mem (nowMs : Int) (nowNtp : Nat) (remote : Nat) :
    ∀ (blocks : List ReportBlock) (st : ReceiverState) (acc : List StoredBlock)
      (b : StoredBlock),
      b ∈ (blocks.foldl (reportStep nowMs nowNtp remote) (st, acc)).1.reportBlocks →
      b ∈ st.reportBlocks ∨ b.sourceSSRC ∈ st.registeredSsrcs
  | [], _, _, _ => fun hb => Or.inl hb
  | rb :: blocks, st, acc, b => by
      intro hb
      rw [List.foldl_cons, reportStep_eq] at hb
      by_cases h : rb.sourceSSRC ∈ st.registeredSsrcs
      · have ih := reportFold_blocks_mem nowMs nowNtp remote blocks _ _ b hb
        rw [handleReportBlock_pos nowMs nowNtp remote st rb h] at ih
        rcases ih with hmem | hreg
        · rcases List.mem_cons.mp hmem with hb1 | hb2
          · right
            rw [hb1]
            exact h
          · left
            exact List.mem_of_mem_filter hb2
        · right
          exact hreg
      · rw [handleReportBlock_neg nowMs nowNtp remote st rb h] at hb
        exact reportFold_blocks_mem nowMs nowNtp remote blocks _ _ b hb

def c3Block : ReportBlock :=
  { sourceSSRC := kNotToUsSsrc
    fractionLost := 7
    cumulativeLost := 3
    extendedHighSeqNum := 10
    jitter := 1
    lastSr := 0
    delaySinceLastSr := 0 }

/-- C3 counterexample: a receiver report carrying one block addressed to an
unowned local identity hands the bandwidth collaborator an *empty* block
list — the contained block is filtered out rather than forwarded, so the
"full list including unowned blocks" reading is false on the code (the test
`InjectRrPacketWithReportBlockNotToUsIgnored` pins the empty list). -/
theorem full_list_forwarding_counterexample :
    (processPacket 100 0 initState (.rr kSenderSsrc [c3Block])).2
      = [Notif.reportBlocks [], Notif.receiverReport kSenderSsrc [] 100]
    ∧ Notif.receiverReport kSenderSsrc [toStored kSenderSsrc c3Block] 100
        ∉ (processPacket 100 0 initState (.rr kSenderSsrc [c3Block])).2 := by
  refine ⟨by decide, by decide⟩

/-- C3 (amended): for every received sender/receiver report, the list of
*owned* report blocks (unowned blocks are filtered out) is forwarded
exactly once to the bandwidth-estimation collaborator together with the
declared origin identity and the current time, only owned blocks are
persisted to the store, and the last-report arrival time is updated in
either case. -/
theorem report_block_forwarding (st : ReceiverState) (nowMs : Int) (nowNtp : Nat)
    (remote : Nat) (blocks : List ReportBlock) :
    (processPacket nowMs nowNtp st (.rr remote blocks)).2.countP isReceiverReportNotif = 1
    ∧ Notif.receiverReport remote (ownedStored st.registeredSsrcs remote blocks) nowMs
        ∈ (processPacket nowMs nowNtp st (.rr remote blocks)).2
    ∧ ((processPacket nowMs nowNtp st (.rr remote blocks)).1.reportBlocks.all
        (fun b => decide (b ∈ st.reportBlocks) || decide (b.sourceSSRC ∈ st.registeredSsrcs)))
        = true
    ∧ (processPacket nowMs nowNtp st (.rr remote blocks)).1.lastReceivedRrMs = nowMs := by
  show (handleReport nowMs nowNtp remote blocks st).2.countP isReceiverReportNotif = 1
    ∧ _ ∈ (handleReport nowMs nowNtp remote blocks st).2
    ∧ (handleReport nowMs nowNtp remote blocks st).1.reportBlocks.all _ = true
    ∧ (handleReport nowMs nowNtp remote blocks st).1.lastReceivedRrMs = nowMs
  rw [handleReport_eq]
  refine ⟨?_, ?_, ?_, rfl⟩
  · simp only [List.countP_cons]
    have h1 : isReceiverReportNotif (Notif.reportBlocks
        (blocks.foldl (reportStep nowMs nowNtp remote) (st, [])).2) = false := rfl
    have h2 : isReceiverReportNotif (Notif.receiverReport remote
        (blocks.foldl (reportStep nowMs nowNtp remote) (st, [])).2 nowMs) = true := rfl
    have h3 : (if (blocks.foldl (reportStep nowMs nowNtp remote)
          (st, [])).1.statsCallbackRegistered
        then (blocks.foldl (reportStep nowMs nowNtp remote) (st, [])).2.map (fun b =>
          Notif.statisticsUpdated b.fractionLost b.cumulativeLost b.extendedHighSeqNum
            b.jitter b.sourceSSRC)
        else []).countP isReceiverReportNotif = 0 := by
      split
      · rw [List.countP_eq_zero]
        intro n hn
        rcases List.mem_map.mp hn with ⟨b, _, hb⟩
        rw [← hb]
        simp [isReceiverReportNotif]
      · rfl
    rw [h3, h1, h2]
    decide
  · rw [reportFold_snd]
    exact List.mem_cons_of_mem _ (List.mem_cons_self _ _)
  · rw [List.all_eq_true]
    intro b hb
    have := reportFold_blocks_mem nowMs nowNtp remote blocks st [] b hb
    rcases this with h | h
    · simp [h]
    · simp [h]

/-! ### C4 — keying of the report-block store -/

def c4Block1 : ReportBlock :=
  { sourceSSRC := kReceiverMainSsrc
    fractionLost := 20
    cumulativeLost := 13
    extendedHighSeqNum := 10
    jitter := 0
    lastSr := 0
    delaySinceLastSr := 0 }

def c4Block2 : ReportBlock :=
  { sourceSSRC := kReceiverMainSsrc
    fractionLost := 11
    cumulativeLost := 555
    extendedHighSeqNum := 12423
    jitter := 0
    lastSr := 0
    delaySinceLastSr := 0 }

/-- The state after two receiver reports from two different remote
identities, both addressed to the same owned local identity (the scenario
of the test `InjectRrPacketsFromTwoRemoteSsrcs`). -/
def c4State : ReceiverState :=
  (processPacket 100 0
    (processPacket 100 0 initState (.rr kSenderSsrc [c4Block1])).1
    (.rr kSenderSsrc2 [c4Block2])).1

/-- C4 counterexample: after report blocks for the same owned local
identity arrive from two different remote identities, the statistics
snapshot holds *two* entries for that local identity — the store is keyed
by the (local, remote) pair, not by the local identity alone, so "a
snapshot never contains two entries for the same local identity" is false
on the code (pinned by the test `InjectRrPacketsFromTwoRemoteSsrcs`). -/
theorem store_per_local_identity_counterexample :
    (statisticsReceived c4State).countP (fun b => b.sourceSSRC == kReceiverMainSsrc) = 2 := by
  decide

theorem filter_sameKey_cons_self (remote : Nat) (rb : ReportBlock) (l : List StoredBlock) :
    (toStored remote rb :: l.filter (fun b => !(sameKey remote rb.sourceSSRC b))).filter
        (sameKey remote rb.sourceSSRC) = [toStored remote rb] := by
  rw [List.filter_cons_of_pos, List.filter_filter]
  · simp
  · simp [sameKey, toStored]

/-- C4 (amended): the report-block store holds at most one entry per
(owned local identity, remote identity) pair — after a report block for
such a pair is received, the store's entries for that pair are exactly the
later block's values, any earlier entry being overwritten.  A snapshot may
still hold several entries for one local identity when they originate from
different remote identities. -/
theorem store_one_entry_per_pair (st : ReceiverState) (nowMs : Int) (nowNtp : Nat)
    (remote : Nat) (rb : ReportBlock) (hown : rb.sourceSSRC ∈ st.registeredSsrcs) :
    ((processPacket nowMs nowNtp st (.rr remote [rb])).1.reportBlocks.filter
        (sameKey remote rb.sourceSSRC)) = [toStored remote rb] := by
  show ((handleReport nowMs nowNtp remote [rb] st).1.reportBlocks.filter
      (sameKey remote rb.sourceSSRC)) = [toStored remote rb]
  rw [handleReport_eq]
  simp only [List.foldl_cons, List.foldl_nil, reportStep_eq]
  rw [handleReportBlock_pos nowMs nowNtp remote st rb hown]
  exact filter_sameKey_cons_self remote rb st.reportBlocks

/-- Witness for C4's amended theorem at a concrete block. -/
theorem store_one_entry_per_pair_witness :
    ((processPacket 100 0 initState (.rr kSenderSsrc [c4Block1])).1.reportBlocks.filter
        (sameKey kSenderSsrc c4Block1.sourceSSRC)) = [toStored kSenderSsrc c4Block1] :=
  store_one_entry_per_pair initState 100 0 kSenderSsrc c4Block1 (by decide)

/-! ### C5 — NACK aggregation -/

theorem insertUnique_toFinset (u : List Nat) (i : Nat) :
    (insertUnique u i).toFinset = insert i u.toFinset := by
  unfold insertUnique
  split
  · rename_i h
    rw [Finset.insert_eq_self.mpr (List.mem_toFinset.mpr h)]
  · rw [List.toFinset_append]
    simp [Finset.insert_eq, Finset.union_comm]

theorem insertUnique_nodup (u : List Nat) (i : Nat) (h : u.Nodup) :
    (insertUnique u i).Nodup := by
  unfold insertUnique
  split
  · exact h
  · rename_i hmem
    rw [List.nodup_append]
    refine ⟨h, List.nodup_singleton i, ?_⟩
    intro a ha hb
    rw [List.mem_singleton] at hb
    exact hmem (hb ▸ ha)

theorem absorbIds_toFinset (ids : List Nat) : ∀ (u : List Nat),
    (absorbIds u ids).toFinset = u.toFinset ∪ ids.toFinset := by
  induction ids with
  | nil => intro u; simp [absorbIds]
  | cons i ids ih =>
      intro u
      show (absorbIds (insertUnique u i) ids).toFinset = _
      rw [ih, insertUnique_toFinset]
      simp [Finset.insert_union, Finset.union_insert]

theorem absorbIds_nodup (ids : List Nat) : ∀ (u : List Nat), u.Nodup →
    (absorbIds u ids).Nodup := by
  induction ids with
  | nil => intro u h; exact h
  | cons i ids ih =>
      intro u h
      exact ih (insertUnique u i) (insertUnique_nodup u i h)

theorem foldl_absorb_nodup (msgs : List (List Nat)) : ∀ (u : List Nat), u.Nodup →
    (msgs.foldl absorbIds u).Nodup := by
  induction msgs with
  | nil => intro u h; exact h
  | cons ids msgs ih =>
      intro u h
      exact ih (absorbIds u ids) (absorbIds_nodup ids u h)

theorem foldl_absorb_toFinset (msgs : List (List Nat)) : ∀ (u : List Nat),
    (msgs.foldl absorbIds u).toFinset
      = msgs.foldl (fun s ids => s ∪ ids.toFinset) u.toFinset := by
  induction msgs with
  | nil => intro u; rfl
  | cons ids msgs ih =>
      intro u
      rw [List.foldl_cons, List.foldl_cons, ih, absorbIds_toFinset]

theorem nackFold (nowMs : Int) (nowNtp : Nat) (remote media : Nat) :
    ∀ (msgs : List (List Nat)) (st : ReceiverState) (acc : List Notif),
    media ∈ st.registeredSsrcs →
    (msgs.foldl (nackSeqStep nowMs nowNtp remote media) (st, acc)).1.nackRequests
        = st.nackRequests + (msgs.map List.length).sum
    ∧ (msgs.foldl (nackSeqStep nowMs nowNtp remote media) (st, acc)).1.uniqueNackIds
        = msgs.foldl absorbIds st.uniqueNackIds
    ∧ (msgs.foldl (nackSeqStep nowMs nowNtp remote media) (st, acc)).2
        = acc ++ msgs.map Notif.receivedNack
  | [], st, acc, _ => ⟨by simp, rfl, by simp⟩
  | ids :: msgs, st, acc, h => by
      rw [List.foldl_cons]
      have hstep : nackSeqStep nowMs nowNtp remote media (st, acc) ids
          = ({ st with
                nackRequests := st.nackRequests + ids.length
                uniqueNackIds := absorbIds st.uniqueNackIds ids },
             acc ++ [Notif.receivedNack ids]) := by
        simp [nackSeqStep, processPacket, handleNack, h]
      rw [hstep]
      obtain ⟨ha, hb, hc⟩ := nackFold nowMs nowNtp remote media msgs
        { st with
            nackRequests := st.nackRequests + ids.length
            uniqueNackIds := absorbIds st.uniqueNackIds ids }
        (acc ++ [Notif.receivedNack ids]) h
      refine ⟨?_, ?_, ?_⟩
      · rw [ha]
        simp [Nat.add_assoc]
      · rw [hb]
        rfl
      · rw [hc]
        simp

/-- C5: for every sequence of NACK messages addressed to an owned local
identity (starting from cleared counters), the total-request counter
equals the sum of the lengths of all received ID lists, the
unique-request counter equals the cardinality of the union of all
received ID sets (IDs repeated across messages are not counted again),
and each message's raw ID list is forwarded verbatim once, in order, to
the retransmission collaborator. -/
theorem nack_aggregation (st : ReceiverState) (nowMs : Int) (nowNtp : Nat)
    (remote media : Nat) (msgs : List (List Nat))
    (hown : media ∈ st.registeredSsrcs)
    (h0 : st.nackRequests = 0) (h1 : st.uniqueNackIds = []) :
    (processNackList nowMs nowNtp remote media st msgs).1.nackRequests
        = (msgs.map List.length).sum
    ∧ uniqueNackRequests (processNackList nowMs nowNtp remote media st msgs).1
        = (nackUnion msgs).card
    ∧ (processNackList nowMs nowNtp remote media st msgs).2
        = msgs.map Notif.receivedNack := by
  obtain ⟨ha, hb, hc⟩ := nackFold nowMs nowNtp remote media msgs st [] hown
  refine ⟨by rw [processNackList, ha, h0, Nat.zero_add], ?_, by rw [processNackList, hc]; simp⟩
  rw [uniqueNackRequests, processNackList, hb, h1]
  have hnodup : ((msgs.foldl absorbIds ([] : List Nat))).Nodup :=
    foldl_absorb_nodup msgs [] List.nodup_nil
  have hfin : (msgs.foldl absorbIds ([] : List Nat)).toFinset = nackUnion msgs := by
    rw [foldl_absorb_toFinset]
    rfl
  rw [← List.toFinset_card_of_nodup hnodup, hfin]

/-- Witness for C5 at the test's two overlapping NACK lists:
totals 4 then 8, unique count 7 = |{1,2,3,5} ∪ {5,7,30,40}|. -/
theorem nack_aggregation_witness :
    (processNackList 0 0 kSenderSsrc kReceiverMainSsrc initState
        [[1, 2, 3, 5], [5, 7, 30, 40]]).1.nackRequests
      = (([[1, 2, 3, 5], [5, 7, 30, 40]] : List (List Nat)).map List.length).sum
    ∧ uniqueNackRequests (processNackList 0 0 kSenderSsrc kReceiverMainSsrc initState
        [[1, 2, 3, 5], [5, 7, 30, 40]]).1
      = (nackUnion [[1, 2, 3, 5], [5, 7, 30, 40]]).card
    ∧ (processNackList 0 0 kSenderSsrc kReceiverMainSsrc initState
        [[1, 2, 3, 5], [5, 7, 30, 40]]).2
      = ([[1, 2, 3, 5], [5, 7, 30, 40]] : List (List Nat)).map Notif.receivedNack :=
  nack_aggregation initState 0 0 kSenderSsrc kReceiverMainSsrc
    [[1, 2, 3, 5], [5, 7, 30, 40]] (by decide) rfl rfl

/-! ### C6 — session-leave removal and restoration -/

theorem lookup_filter_ne {β : Type} (k : Nat) (l : List (Nat × β)) :
    (l.filter (fun p => p.1 != k)).lookup k = none := by
  induction l with
  | nil => rfl
  | cons p l ih =>
      by_cases h : p.1 = k
      · have hp : (p.1 != k) = false := by simp [h]
        simp only [List.filter_cons, hp, Bool.false_eq_true, if_false]
        exact ih
      · have hp : (p.1 != k) = true := by simp [h]
        simp only [List.filter_cons, hp, if_true]
        have hk : (k == p.1) = false := by
          simp [Ne.symm h]
        simp [List.lookup, hk, ih]

theorem remoteFilter_filter_out (remote : Nat) (l : List StoredBlock) :
    remoteFilter remote (l.filter (fun b => b.remoteSSRC != remote)) = [] := by
  unfold remoteFilter
  rw [List.filter_filter]
  have hp : ∀ b : StoredBlock,
      ((b.remoteSSRC == remote) && (b.remoteSSRC != remote)) = false := by
    intro b
    cases hx : (b.remoteSSRC == remote) <;> simp [bne, hx]
  simp [hp]

theorem remoteFilter_filter_key (remote src : Nat) (l : List StoredBlock) :
    remoteFilter remote (l.filter (fun b => !(sameKey remote src b)))
      = (remoteFilter remote l).filter (fun b => !(b.sourceSSRC == src)) := by
  unfold remoteFilter
  rw [List.filter_filter, List.filter_filter]
  apply List.filter_congr
  intro b _
  cases hr : (b.remoteSSRC == remote) <;> cases hs : (b.sourceSSRC == src) <;>
    simp [sameKey, hr, hs]

theorem reportFold_remoteFilter (nowMs : Int) (nowNtp : Nat) (remote : Nat)
    (blocks : List ReportBlock) : ∀ (st : ReceiverState) (acc : List StoredBlock),
    remoteFilter remote
        ((blocks.foldl (reportStep nowMs nowNtp remote) (st, acc)).1.reportBlocks)
      = storeFoldRemote st.registeredSsrcs remote blocks
          (remoteFilter remote st.reportBlocks) := by
  induction blocks with
  | nil => intro st acc; rfl
  | cons rb blocks ih =>
      intro st acc
      rw [List.foldl_cons, reportStep_eq, ih]
      by_cases h : rb.sourceSSRC ∈ st.registeredSsrcs
      · rw [handleReportBlock_pos nowMs nowNtp remote st rb h]
        show storeFoldRemote st.registeredSsrcs remote blocks
            (remoteFilter remote (toStored remote rb ::
              st.reportBlocks.filter (fun b => !(sameKey remote rb.sourceSSRC b))))
          = storeFoldRemote st.registeredSsrcs remote (rb :: blocks)
              (remoteFilter remote st.reportBlocks)
        have hhead : remoteFilter remote (toStored remote rb ::
              st.reportBlocks.filter (fun b => !(sameKey remote rb.sourceSSRC b)))
            = toStored remote rb :: remoteFilter remote
                (st.reportBlocks.filter (fun b => !(sameKey remote rb.sourceSSRC b))) := by
          unfold remoteFilter
          rw [List.filter_cons_of_pos]
          simp [toStored]
        rw [hhead, remoteFilter_filter_key]
        show _ = storeFoldRemote st.registeredSsrcs remote blocks
            (if rb.sourceSSRC ∈ st.registeredSsrcs then
              toStored remote rb :: (remoteFilter remote st.reportBlocks).filter
                (fun b => !(b.sourceSSRC == rb.sourceSSRC))
             else remoteFilter remote st.reportBlocks)
        rw [if_pos h]
      · rw [handleReportBlock_neg nowMs nowNtp remote st rb h]
        show storeFoldRemote st.registeredSsrcs remote blocks
            (remoteFilter remote st.reportBlocks)
          = storeFoldRemote st.registeredSsrcs remote (rb :: blocks)
              (remoteFilter remote st.reportBlocks)
        show _ = storeFoldRemote st.registeredSsrcs remote blocks
            (if rb.sourceSSRC ∈ st.registeredSsrcs then
              toStored remote rb :: (remoteFilter remote st.reportBlocks).filter
                (fun b => !(b.sourceSSRC == rb.sourceSSRC))
             else remoteFilter remote st.reportBlocks)
        rw [if_neg h]

/-- C6: a session-leave message from a remote identity removes its
canonical-name entry and every stored report block whose most recent
origin was that remote identity — a subsequent CNAME query fails and the
statistics snapshot excludes those blocks — and re-receiving the same
original report message afterwards restores exactly the same report-block
values for that remote identity. -/
theorem bye_removes_and_reinject_restores (st : ReceiverState) (nowMs nowMs2 : Int)
    (nowNtp nowNtp2 : Nat) (remote : Nat) (blocks : List ReportBlock)
    (hclean : st.reportBlocks.filter (fun b => b.remoteSSRC == remote) = []) :
    cnameQuery (processPacket nowMs nowNtp
        (processPacket nowMs nowNtp st (.rr remote blocks)).1 (.bye remote)).1 remote = none
    ∧ (statisticsReceived (processPacket nowMs nowNtp
          (processPacket nowMs nowNtp st (.rr remote blocks)).1 (.bye remote)).1).filter
        (fun b => b.remoteSSRC == remote) = []
    ∧ (statisticsReceived (processPacket nowMs2 nowNtp2
          (processPacket nowMs nowNtp
            (processPacket nowMs nowNtp st (.rr remote blocks)).1 (.bye remote)).1
          (.rr remote blocks)).1).filter (fun b => b.remoteSSRC == remote)
      = (statisticsReceived
          (processPacket nowMs nowNtp st (.rr remote blocks)).1).filter
            (fun b => b.remoteSSRC == remote) := by
  refine ⟨lookup_filter_ne remote _, remoteFilter_filter_out remote _, ?_⟩
  have h1 : remoteFilter remote
      ((processPacket nowMs nowNtp st (.rr remote blocks)).1.reportBlocks)
      = storeFoldRemote st.registeredSsrcs remote blocks [] := by
    have hbase := reportFold_remoteFilter nowMs nowNtp remote blocks st []
    rw [show remoteFilter remote st.reportBlocks = [] from hclean] at hbase
    exact hbase
  have h2 : remoteFilter remote
      ((processPacket nowMs2 nowNtp2
          (processPacket nowMs nowNtp
            (processPacket nowMs nowNtp st (.rr remote blocks)).1 (.bye remote)).1
          (.rr remote blocks)).1.reportBlocks)
      = storeFoldRemote st.registeredSsrcs remote blocks [] := by
    have hbase := reportFold_remoteFilter nowMs2 nowNtp2 remote blocks
      (processPacket nowMs nowNtp
        (processPacket nowMs nowNtp st (.rr remote blocks)).1 (.bye remote)).1 []
    have hempty : remoteFilter remote
        ((processPacket nowMs nowNtp
          (processPacket nowMs nowNtp st (.rr remote blocks)).1
          (.bye remote)).1.reportBlocks) = [] :=
      remoteFilter_filter_out remote _
    have hregs : ((processPacket nowMs nowNtp
          (processPacket nowMs nowNtp st (.rr remote blocks)).1
          (.bye remote)).1.registeredSsrcs) = st.registeredSsrcs :=
      reportFold_registeredSsrcs nowMs nowNtp remote blocks (st, [])
    rw [hempty, hregs] at hbase
    exact hbase
  exact h2.trans h1.symm

def c6Block : ReportBlock :=
  { sourceSSRC := kReceiverExtraSsrc
    fractionLost := 2
    cumulativeLost := 4
    extendedHighSeqNum := 6
    jitter := 8
    lastSr := 0
    delaySinceLastSr := 0 }

/-- Witness for C6 at a concrete report/bye/report run. -/
theorem bye_removes_and_reinject_restores_witness :
    cnameQuery (processPacket 10 0
        (processPacket 10 0 initState (.rr kSenderSsrc [c6Block])).1
        (.bye kSenderSsrc)).1 kSenderSsrc = none
    ∧ (statisticsReceived (processPacket 10 0
          (processPacket 10 0 initState (.rr kSenderSsrc [c6Block])).1
          (.bye kSenderSsrc)).1).filter
        (fun b => b.remoteSSRC == kSenderSsrc) = []
    ∧ (statisticsReceived (processPacket 20 0
          (processPacket 10 0
            (processPacket 10 0 initState (.rr kSenderSsrc [c6Block])).1
            (.bye kSenderSsrc)).1
          (.rr kSenderSsrc [c6Block])).1).filter (fun b => b.remoteSSRC == kSenderSsrc)
      = (statisticsReceived
          (processPacket 10 0 initState (.rr kSenderSsrc [c6Block])).1).filter
            (fun b => b.remoteSSRC == kSenderSsrc) :=
  bye_removes_and_reinject_restores initState 10 20 0 0 kSenderSsrc [c6Block] rfl

/-! ### C7 — sequence-number timeout -/

def c7Block : ReportBlock :=
  { sourceSSRC := kReceiverMainSsrc
    fractionLost := 0
    cumulativeLost := 0
    extendedHighSeqNum := 1234
    jitter := 0
    lastSr := 0
    delaySinceLastSr := 0 }

/-- The state after one receiver report at 1000 ms carrying a fresh
extended-highest-sequence-number for an owned identity. -/
def c7State : ReceiverState :=
  (processPacket 1000 0 initState (.rr kSenderSsrc [c7Block])).1

/-- C7 counterexample: 2000 ms — more than the caller-supplied 1000 ms
interval — after the last change of the extended-highest-sequence-number,
the first sequence-number timeout check still returns false: the code
waits for three times the supplied interval, not the interval itself
(the test `ReceiveReportTimeout` requires false at 3×interval − 1 after
the last change). -/
theorem seq_timeout_interval_counterexample :
    c7State.lastIncreasedSeqMs = 1000
    ∧ (1000 : Int) < 3000 - c7State.lastIncreasedSeqMs
    ∧ (rtcpRrSequenceNumberTimeout 1000 3000 c7State).1 = false := by
  refine ⟨by decide, by decide, by decide⟩

/-- C7 (amended): the sequence-number timeout query returns true exactly
on the first check made more than *three times* the caller-supplied
interval after the last change of the extended-highest-sequence-number,
returns false on every subsequent check until a differing sequence number
arrives, and a report block repeating the stored sequence number never
refreshes the change time, while a differing one sets it to the arrival
time. -/
theorem seq_timeout_edge (st : ReceiverState) (intervalMs nowMs i2 n2 nowMs2 : Int)
    (nowNtp2 : Nat) (remote : Nat) (rb : ReportBlock) (prev : StoredBlock)
    (hne : st.lastIncreasedSeqMs ≠ 0) :
    (nowMs ≤ st.lastIncreasedSeqMs + kRrTimeoutIntervals * intervalMs →
      rtcpRrSequenceNumberTimeout intervalMs nowMs st = (false, st))
    ∧ (st.lastIncreasedSeqMs + kRrTimeoutIntervals * intervalMs < nowMs →
        (rtcpRrSequenceNumberTimeout intervalMs nowMs st).1 = true
        ∧ (rtcpRrSequenceNumberTimeout i2 n2
            (rtcpRrSequenceNumberTimeout intervalMs nowMs st).2).1 = false)
    ∧ (rb.sourceSSRC ∈ st.registeredSsrcs →
        st.reportBlocks.find? (sameKey remote rb.sourceSSRC) = some prev →
        ((prev.extendedHighSeqNum = rb.extendedHighSeqNum →
            (handleReportBlock nowMs2 nowNtp2 remote st rb).1.lastIncreasedSeqMs
              = st.lastIncreasedSeqMs)
         ∧ (prev.extendedHighSeqNum ≠ rb.extendedHighSeqNum →
            (handleReportBlock nowMs2 nowNtp2 remote st rb).1.lastIncreasedSeqMs
              = nowMs2))) := by
  refine ⟨?_, ?_, ?_⟩
  · intro hle
    unfold rtcpRrSequenceNumberTimeout
    rw [if_neg hne, if_neg (not_lt.mpr hle)]
  · intro hlt
    constructor
    · unfold rtcpRrSequenceNumberTimeout
      rw [if_neg hne, if_pos hlt]
    · unfold rtcpRrSequenceNumberTimeout
      rw [if_neg hne, if_pos hlt]
      simp
  · intro hown hfind
    have hs : (handleReportBlock nowMs2 nowNtp2 remote st rb).1.lastIncreasedSeqMs
        = seqUpdate nowMs2 st remote rb := by
      rw [handleReportBlock_pos nowMs2 nowNtp2 remote st rb hown]
    rw [hs]
    simp only [seqUpdate, hfind]
    constructor
    · intro heq
      rw [if_pos heq]
    · intro hneq
      rw [if_neg hneq]

/-- Witness for C7's amended theorem: a check 1500 ms after the last
change with a 1000 ms interval (below the 3000 ms threshold) is false and
changes nothing. -/
theorem seq_timeout_edge_witness :
    rtcpRrSequenceNumberTimeout 1000 2500 c7State = (false, c7State) :=
  (seq_timeout_edge c7State 1000 2500 0 0 0 0 kSenderSsrc c7Block
      (toStored kSenderSsrc c7Block) (by decide)).1 (by decide)

/-! ### C8 — one-shot XR DLRR round-trip sample -/

theorem xrDlrr_fold_unowned (nowNtp : Nat) :
    ∀ (items : List DlrrItem) (st : ReceiverState),
    (∀ it ∈ items, it.ssrc ∉ st.registeredSsrcs) →
    items.foldl (handleDlrrItem nowNtp) st = st
  | [], _, _ => rfl
  | it :: items, st, h => by
      rw [List.foldl_cons]
      have hst : handleDlrrItem nowNtp st it = st := by
        unfold handleDlrrItem
        rw [if_neg]
        intro hc
        exact (h it (List.mem_cons_self it items)) hc.1
      rw [hst]
      exact xrDlrr_fold_unowned nowNtp items st (fun i hi => h i (List.mem_cons_of_mem it hi))

/-- C8: the pending XR DLRR round-trip sample is consumable exactly once —
a query returns a pending sample with success and clears it, so the
immediately following query reports no sample; a state that was never fed
a sample reports none; and a DLRR whose items are all addressed to unowned
identities produces no sample. -/
theorem xr_rtt_one_shot (st stNone : ReceiverState) (v : Int) (nowMs : Int)
    (nowNtp : Nat) (remote : Nat) (items : List DlrrItem)
    (hpend : st.xrRrRttMs = some v) (hnone : stNone.xrRrRttMs = none)
    (hunowned : ∀ it ∈ items, it.ssrc ∉ stNone.registeredSsrcs) :
    (getAndResetXrRrRtt st).1 = some v
    ∧ (getAndResetXrRrRtt (getAndResetXrRrRtt st).2).1 = none
    ∧ (getAndResetXrRrRtt stNone).1 = none
    ∧ (getAndResetXrRrRtt
        (processPacket nowMs nowNtp stNone (.xrDlrr remote items)).1).1 = none := by
  refine ⟨hpend, rfl, hnone, ?_⟩
  show (items.foldl (handleDlrrItem nowNtp) stNone).xrRrRttMs = none
  rw [xrDlrr_fold_unowned nowNtp items stNone hunowned]
  exact hnone

/-- A state with a pending XR round-trip sample, produced end-to-end by a
DLRR sub-block addressed to the owned main identity. -/
def c8State : ReceiverState :=
  (processPacket 0 196608 (setRtcpXrRrtrStatus true initState)
    (.xrDlrr kSenderSsrc [{ ssrc := kReceiverMainSsrc, lastRR := 0x10000,
                            delaySinceLastRR := 0x8000 }])).1

/-- Witness for C8: the pending 1500 ms sample is returned once and then
cleared; an unowned DLRR leaves the fresh state without a sample. -/
theorem xr_rtt_one_shot_witness :
    (getAndResetXrRrRtt c8State).1 = some 1500
    ∧ (getAndResetXrRrRtt (getAndResetXrRrRtt c8State).2).1 = none
    ∧ (getAndResetXrRrRtt initState).1 = none
    ∧ (getAndResetXrRrRtt
        (processPacket 0 0 initState (.xrDlrr kSenderSsrc
          [{ ssrc := kNotToUsSsrc, lastRR := 0x12345, delaySinceLastRR := 0x67890 }])).1).1
      = none :=
  xr_rtt_one_shot c8State initState 1500 0 0 kSenderSsrc
    [{ ssrc := kNotToUsSsrc, lastRR := 0x12345, delaySinceLastRR := 0x67890 }]
    (by decide) rfl (by decide)

/-! ### C9 — lazy expiry of TMMBR candidates -/

/-- C9: a TMMBR candidate stored at its arrival time is absent from any
candidate-set read made more than the fixed expiry window after that
arrival — with no new message needed, only elapsed time — while a read
within the window still returns it with its advertised bitrate. -/
theorem tmmbr_lazy_expiry (st : ReceiverState) (arrivalMs nowMs nowMs2 : Int)
    (nowNtp : Nat) (remote media bitrate : Nat)
    (hown : media ∈ st.registeredSsrcs) (hbr : bitrate ≠ 0) :
    (kTmmbrTimeoutMs < nowMs2 - arrivalMs →
      ((tmmbrReceived nowMs2
          (processPacket arrivalMs nowNtp st (.tmmbr remote [(media, bitrate)])).1).filter
        (fun item => item.1 == remote)) = [])
    ∧ (nowMs - arrivalMs ≤ kTmmbrTimeoutMs →
        (remote, bitrate) ∈ tmmbrReceived nowMs
          (processPacket arrivalMs nowNtp st (.tmmbr remote [(media, bitrate)])).1) := by
  have hstate : (processPacket arrivalMs nowNtp st
        (.tmmbr remote [(media, bitrate)])).1.tmmbrInfos
      = (remote, { bitrateBps := bitrate, arrivalMs := arrivalMs }) ::
          st.tmmbrInfos.filter (fun p => p.1 != remote) := by
    show (handleTmmbr arrivalMs remote [(media, bitrate)] st).1.tmmbrInfos = _
    unfold handleTmmbr
    rw [List.foldl_cons, List.foldl_nil]
    unfold handleTmmbrItem
    rw [if_pos ⟨hown, hbr⟩]
  constructor
  · intro hgt
    unfold tmmbrReceived
    rw [hstate, List.filter_cons_of_neg]
    · rw [List.filter_eq_nil_iff]
      intro item hitem
      rcases List.mem_map.mp hitem with ⟨q, hq, hfq⟩
      have hne : (q.1 != remote) = true := (List.mem_filter.mp (List.mem_filter.mp hq).1).2
      rw [← hfq]
      simpa using hne
    · simp only [tmmbrNotExpired, decide_eq_true_eq]
      intro hle
      exact absurd hgt (not_lt.mpr hle)
  · intro hle
    unfold tmmbrReceived
    rw [hstate, List.filter_cons_of_pos]
    · rw [List.map_cons]
      exact List.mem_cons_self _ _
    · simp [tmmbrNotExpired, hle]

/-- Witness for C9: a candidate stored at t = 0 is present at a read at
t = 15000 and absent at a read at t = 27000 with no intervening message. -/
theorem tmmbr_lazy_expiry_witness :
    ((tmmbrReceived 27000
        (processPacket 0 0 initState
          (.tmmbr kSenderSsrc [(kReceiverMainSsrc, 30000)])).1).filter
      (fun item => item.1 == kSenderSsrc)) = []
    ∧ (kSenderSsrc, 30000) ∈ tmmbrReceived 15000
        (processPacket 0 0 initState
          (.tmmbr kSenderSsrc [(kReceiverMainSsrc, 30000)])).1 :=
  have h := tmmbr_lazy_expiry initState 0 15000 27000 0 kSenderSsrc kReceiverMainSsrc 30000
    (by decide) (by decide)
  ⟨h.1 (by decide), h.2 (by decide)⟩

/-! ### C10 — statistics sink registration and notification content -/

/-- C10: while a statistics sink is registered, an owned report block
fires exactly one statistics notification carrying that block's
fraction-lost, cumulative-lost, extended-highest-sequence-number and
jitter values with its local identity; after registering a null sink,
processing fires no statistics notification while the report-block and
bandwidth collaborators are still notified and the state still updates. -/
theorem stats_callback_registration (st : ReceiverState) (nowMs : Int) (nowNtp : Nat)
    (remote : Nat) (rb : ReportBlock) (hown : rb.sourceSSRC ∈ st.registeredSsrcs) :
    (processPacket nowMs nowNtp (registerRtcpStatisticsCallback true st)
        (.rr remote [rb])).2
      = [Notif.reportBlocks [toStored remote rb],
         Notif.receiverReport remote [toStored remote rb] nowMs,
         Notif.statisticsUpdated rb.fractionLost rb.cumulativeLost rb.extendedHighSeqNum
           rb.jitter rb.sourceSSRC]
    ∧ ((processPacket nowMs nowNtp (registerRtcpStatisticsCallback false st)
          (.rr remote [rb])).2.countP isStatisticsUpdated) = 0
    ∧ Notif.reportBlocks [toStored remote rb]
        ∈ (processPacket nowMs nowNtp (registerRtcpStatisticsCallback false st)
            (.rr remote [rb])).2
    ∧ Notif.receiverReport remote [toStored remote rb] nowMs
        ∈ (processPacket nowMs nowNtp (registerRtcpStatisticsCallback false st)
            (.rr remote [rb])).2
    ∧ (processPacket nowMs nowNtp (registerRtcpStatisticsCallback false st)
        (.rr remote [rb])).1.lastReceivedRrMs = nowMs
    ∧ toStored remote rb ∈ (processPacket nowMs nowNtp
        (registerRtcpStatisticsCallback false st) (.rr remote [rb])).1.reportBlocks := by
  have hT : (handleReportBlock nowMs nowNtp remote
        (registerRtcpStatisticsCallback true st) rb)
      = ({ registerRtcpStatisticsCallback true st with
            reportBlocks := toStored remote rb ::
              (registerRtcpStatisticsCallback true st).reportBlocks.filter
                (fun b => !(sameKey remote rb.sourceSSRC b))
            rtts := (remote, rttUpdate nowNtp (registerRtcpStatisticsCallback true st)
                remote rb) ::
              (registerRtcpStatisticsCallback true st).rtts.filter (fun p => p.1 != remote)
            lastIncreasedSeqMs := seqUpdate nowMs
              (registerRtcpStatisticsCallback true st) remote rb },
         [toStored remote rb]) :=
    handleReportBlock_pos nowMs nowNtp remote _ rb hown
  have hF : (handleReportBlock nowMs nowNtp remote
        (registerRtcpStatisticsCallback false st) rb)
      = ({ registerRtcpStatisticsCallback false st with
            reportBlocks := toStored remote rb ::
              (registerRtcpStatisticsCallback false st).reportBlocks.filter
                (fun b => !(sameKey remote rb.sourceSSRC b))
            rtts := (remote, rttUpdate nowNtp (registerRtcpStatisticsCallback false st)
                remote rb) ::
              (registerRtcpStatisticsCallback false st).rtts.filter (fun p => p.1 != remote)
            lastIncreasedSeqMs := seqUpdate nowMs
              (registerRtcpStatisticsCallback false st) remote rb },
         [toStored remote rb]) :=
    handleReportBlock_pos nowMs nowNtp remote _ rb hown
  refine ⟨?_, ?_, ?_, ?_, ?_, ?_⟩
  · show (handleReport nowMs nowNtp remote [rb] (registerRtcpStatisticsCallback true st)).2 = _
    rw [handleReport_eq]
    simp only [List.foldl_cons, List.foldl_nil, reportStep_eq, hT]
    rfl
  · show ((handleReport nowMs nowNtp remote [rb]
        (registerRtcpStatisticsCallback false st)).2.countP isStatisticsUpdated) = 0
    rw [handleReport_eq]
    simp only [List.foldl_cons, List.foldl_nil, reportStep_eq, hF]
    rfl
  · show Notif.reportBlocks [toStored remote rb] ∈ (handleReport nowMs nowNtp remote [rb]
        (registerRtcpStatisticsCallback false st)).2
    rw [handleReport_eq]
    simp only [List.foldl_cons, List.foldl_nil, reportStep_eq, hF]
    exact List.mem_cons_self _ _
  · show Notif.receiverReport remote [toStored remote rb] nowMs
        ∈ (handleReport nowMs nowNtp remote [rb]
            (registerRtcpStatisticsCallback false st)).2
    rw [handleReport_eq]
    simp only [List.foldl_cons, List.foldl_nil, reportStep_eq, hF]
    exact List.mem_cons_of_mem _ (List.mem_cons_self _ _)
  · show (handleReport nowMs nowNtp remote [rb]
        (registerRtcpStatisticsCallback false st)).1.lastReceivedRrMs = nowMs
    rw [handleReport_eq]
  · show toStored remote rb ∈ (handleReport nowMs nowNtp remote [rb]
        (registerRtcpStatisticsCallback false st)).1.reportBlocks
    rw [handleReport_eq]
    simp only [List.foldl_cons, List.foldl_nil, reportStep_eq, hF]
    exact List.mem_cons_self _ _

def c10Block : ReportBlock :=
  { sourceSSRC := kReceiverMainSsrc
    fractionLost := 3
    cumulativeLost := 7
    extendedHighSeqNum := 1234
    jitter := 9
    lastSr := 0
    delaySinceLastSr := 0 }

/-- Witness for C10 at the test's block values (fraction 3, cumulative 7,
sequence 1234, jitter 9). -/
theorem stats_callback_registration_witness :
    (processPacket 50 0 (registerRtcpStatisticsCallback true initState)
        (.rr kSenderSsrc [c10Block])).2
      = [Notif.reportBlocks [toStored kSenderSsrc c10Block],
         Notif.receiverReport kSenderSsrc [toStored kSenderSsrc c10Block] 50,
         Notif.statisticsUpdated c10Block.fractionLost c10Block.cumulativeLost
           c10Block.extendedHighSeqNum c10Block.jitter c10Block.sourceSSRC]
    ∧ ((processPacket 50 0 (registerRtcpStatisticsCallback false initState)
          (.rr kSenderSsrc [c10Block])).2.countP isStatisticsUpdated) = 0
    ∧ Notif.reportBlocks [toStored kSenderSsrc c10Block]
        ∈ (processPacket 50 0 (registerRtcpStatisticsCallback false initState)
            (.rr kSenderSsrc [c10Block])).2
    ∧ Notif.receiverReport kSenderSsrc [toStored kSenderSsrc c10Block] 50
        ∈ (processPacket 50 0 (registerRtcpStatisticsCallback false initState)
            (.rr kSenderSsrc [c10Block])).2
    ∧ (processPacket 50 0 (registerRtcpStatisticsCallback false initState)
        (.rr kSenderSsrc [c10Block])).1.lastReceivedRrMs = 50
    ∧ toStored kSenderSsrc c10Block ∈ (processPacket 50 0
        (registerRtcpStatisticsCallback false initState)
        (.rr kSenderSsrc [c10Block])).1.reportBlocks :=
  stats_callback_registration initState 50 0 kSenderSsrc c10Block (by decide)

end RtcpModel
